import Mathlib

/-!
Verification of the Windsurf/Codeium binary protocol bridge
(`src/plugin/grpc-client.ts`, `src/plugin/models.ts`, `src/plugin.ts`).

The TypeScript sources are shallowly embedded: byte buffers become
`List Nat`, JavaScript strings become Lean `String` (all names and
payloads of interest are ASCII), nondeterministic inputs (`Date.now()`,
`crypto.randomUUID()`) become explicit parameters gathered in `ReqEnv`,
and fallible operations return `Option`.
-/

namespace OWB

/-- JavaScript whitespace class `\s` restricted to the ASCII range that can
    actually occur in the strings this code manipulates (the extractor first
    replaces every character outside `0x20..0x7E`/`\n` by a space, and all
    registry keys are ASCII). -/
def isJsWs (c : Char) : Bool :=
  c = ' ' ∨ c = '\t' ∨ c = '\n' ∨ c = '\r' ∨ c = Char.ofNat 11 ∨ c = Char.ofNat 12

/-- `String.prototype.trim` on a character list (strip leading and trailing
    whitespace). -/
def jsTrimList (cs : List Char) : List Char :=
  ((cs.dropWhile isJsWs).reverse.dropWhile isJsWs).reverse

/-- `String.prototype.trim`. -/
def jsTrim (s : String) : String :=
  String.mk (jsTrimList s.data)

/-- `String.prototype.toLowerCase` on the ASCII range (all registry keys and
    model names here are ASCII, where the JS function is exactly this map). -/
def charLower (c : Char) : Char :=
  if 65 ≤ c.toNat ∧ c.toNat ≤ 90 then Char.ofNat (c.toNat + 32) else c

/-- `String.prototype.toLowerCase`. -/
def lowerStr (s : String) : String :=
  String.mk (s.data.map charLower)

/-- UTF-8 encoding of one Unicode scalar value, as `Buffer.from(str, 'utf8')`
    produces for each code point (`Char` is always a scalar value). -/
def utf8EncodeChar (n : Nat) : List Nat :=
  if n < 128 then [n]
  else if n < 2048 then [192 + n / 64, 128 + n % 64]
  else if n < 65536 then [224 + n / 4096, 128 + n / 64 % 64, 128 + n % 64]
  else [240 + n / 262144, 128 + n / 4096 % 64, 128 + n / 64 % 64, 128 + n % 64]

/-- The byte sequence `Buffer.from(str, 'utf8')`. -/
def utf8Bytes (s : String) : List Nat :=
  (s.data.map (fun c => utf8EncodeChar c.toNat)).flatten

/-- Recursion skeleton for `encodeVarint`, driven by a fuel argument so the
    definition is structurally recursive (and hence evaluates inside the
    kernel).  A fuel of `v + 1` always suffices; `encodeVarint_eq` below
    recovers exactly the source's loop as an equation. -/
def encodeVarintAux : Nat → Nat → List Nat
  | 0, v => [v]
  | fuel + 1, v =>
    if v > 127 then (v % 128 + 128) :: encodeVarintAux fuel (v / 128) else [v]

/-- `encodeVarint` (grpc-client.ts:38-47): little-endian base-128 varint.
    The source loops `while (v > 127n)` pushing `Number(v & 0x7fn) | 0x80`
    and shifting right by 7; BigInt arithmetic is exact, hence `Nat`. -/
def encodeVarint (v : Nat) : List Nat :=
  encodeVarintAux (v + 1) v

lemma encodeVarintAux_congr :
    ∀ f1 f2 v, v ≤ f1 → v ≤ f2 → encodeVarintAux f1 v = encodeVarintAux f2 v := by
  intro f1
  induction f1 with
  | zero =>
    intro f2 v h1 h2
    have hv : v = 0 := by omega
    subst hv
    cases f2 with
    | zero => rfl
    | succ g => simp [encodeVarintAux]
  | succ f ih =>
    intro f2 v h1 h2
    cases f2 with
    | zero =>
      have hv : v = 0 := by omega
      subst hv
      simp [encodeVarintAux]
    | succ g =>
      simp only [encodeVarintAux]
      by_cases h : v > 127
      · have hlt : v / 128 < v := Nat.div_lt_self (by omega) (by omega)
        simp only [h, if_true]
        rw [ih g (v / 128) (by omega) (by omega)]
      · simp [h]

/-- The recursion of the source's `while` loop, as an equation about
    `encodeVarint`. -/
lemma encodeVarint_eq (v : Nat) :
    encodeVarint v = if v > 127 then (v % 128 + 128) :: encodeVarint (v / 128) else [v] := by
  show encodeVarintAux (v + 1) v = _
  by_cases h : v > 127
  · have hlt : v / 128 < v := Nat.div_lt_self (by omega) (by omega)
    simp only [encodeVarintAux, h, if_true]
    rw [encodeVarintAux_congr v (v / 128 + 1) (v / 128) (by omega) (by omega)]
    rfl
  · simp [encodeVarintAux, h]

/-- The standard varint decoder: sum of the 7-bit groups
    `(b_i & 0x7F) << 7*i` (for byte values `b`, `b % 128 = b &&& 0x7F`). -/
def decodeVarint (bs : List Nat) : Nat :=
  bs.foldr (fun b acc => b % 128 + 128 * acc) 0

/-- `encodeString` (grpc-client.ts:52-55): wire type 2, length-delimited. -/
def encodeString (fieldNum : Nat) (str : String) : List Nat :=
  ((fieldNum <<< 3) ||| 2) :: (encodeVarint (utf8Bytes str).length ++ utf8Bytes str)

/-- `encodeMessage` (grpc-client.ts:60-62): nested message field. -/
def encodeMessage (fieldNum : Nat) (data : List Nat) : List Nat :=
  ((fieldNum <<< 3) ||| 2) :: (encodeVarint data.length ++ data)

/-- `encodeVarintField` (grpc-client.ts:67-69): wire type 0. -/
def encodeVarintField (fieldNum : Nat) (value : Nat) : List Nat :=
  ((fieldNum <<< 3) ||| 0) :: encodeVarint value

/-- The nondeterministic inputs of one request build: the two `Date.now()`
    readings and the three `crypto.randomUUID()` results, passed explicitly. -/
structure ReqEnv where
  metaNow : Nat
  sessionId : String
  msgNow : Nat
  msgId : String
  convId : String

/-- `encodeMetadata` (grpc-client.ts:78-92); `requestId = BigInt(Date.now())`
    is `env.metaNow`, `sessionId` is `env.sessionId`. -/
def encodeMetadata (env : ReqEnv) (apiKey version : String) : List Nat :=
  encodeString 1 "windsurf-next" ++ encodeString 2 version ++
  encodeString 3 apiKey ++ encodeString 4 "en" ++ encodeString 7 version ++
  encodeVarintField 9 env.metaNow ++ encodeString 10 env.sessionId ++
  encodeString 12 "windsurf"

/-- `encodeTimestamp` (grpc-client.ts:97-102): seconds and nanos from one
    `Date.now()` reading (`env.msgNow`). -/
def encodeTimestamp (env : ReqEnv) : List Nat :=
  encodeVarintField 1 (env.msgNow / 1000) ++
  encodeVarintField 2 (env.msgNow % 1000 * 1000000)

/-- `encodeIntentGeneric` (grpc-client.ts:107-109). -/
def encodeIntentGeneric (text : String) : List Nat :=
  encodeString 1 text

/-- `encodeChatMessageIntent` (grpc-client.ts:114-117). -/
def encodeChatMessageIntent (text : String) : List Nat :=
  encodeMessage 1 (encodeIntentGeneric text)

/-- `encodeChatMessage` (grpc-client.ts:122-135). -/
def encodeChatMessage (env : ReqEnv) (source : Nat) (text : String) : List Nat :=
  encodeString 1 env.msgId ++ encodeVarintField 2 source ++
  encodeMessage 3 (encodeTimestamp env) ++ encodeString 4 env.convId ++
  encodeMessage 5 (encodeChatMessageIntent text)

/-- Message roles of `ChatMessage` (grpc-client.ts:18-21). -/
inductive Role
  | user
  | assistant
  | system
  | tool
deriving DecidableEq, Repr

/-- `ChatMessage` (grpc-client.ts:18-21). -/
structure ChatMessage where
  role : Role
  content : String
deriving DecidableEq, Repr

/-- Modelled from the spec: `ChatMessageSource.USER` comes from
    `src/plugin/types.ts`, which is not among the sources; its concrete
    numeric value is irrelevant to every claim (it is only passed through
    as the `source` varint field of the chat message). -/
def ChatMessageSourceUSER : Nat := 1

/-- Lines 148-150 of grpc-client.ts:
    `messages.filter((m) => m.role === 'user').pop()` and
    `lastUserMessage?.content || ''` (for a string, `|| ''` maps only the
    empty string to `''`, which is the identity). -/
def lastUserPrompt (messages : List ChatMessage) : String :=
  match (messages.filter (fun m => m.role == Role.user)).getLast? with
  | some m => m.content
  | none => ""

/-- The protobuf payload assembled in `buildChatRequest`
    (grpc-client.ts:146-160). -/
def chatRequestPayload (env : ReqEnv) (apiKey version : String)
    (modelEnum : Nat) (messages : List ChatMessage) : List Nat :=
  encodeMessage 1 (encodeMetadata env apiKey version) ++
  encodeMessage 2 (encodeChatMessage env ChatMessageSourceUSER
    (lastUserPrompt messages)) ++
  encodeVarintField 4 modelEnum

/-- The four bytes `Buffer.writeUInt32BE` stores for `n < 2^32`. -/
def toBE32 (n : Nat) : List Nat :=
  [n / 16777216 % 256, n / 65536 % 256, n / 256 % 256, n % 256]

/-- Big-endian reading of a byte list. -/
def fromBE32 (bs : List Nat) : Nat :=
  bs.foldl (fun acc b => acc * 256 + b) 0

/-- `buildChatRequest` (grpc-client.ts:140-169): gRPC framing, one byte
    compression flag 0, four bytes big-endian length, then the payload.
    `writeUInt32BE` throws for lengths at or above `2^32`, hence `Option`. -/
def buildChatRequest (env : ReqEnv) (apiKey version : String)
    (modelEnum : Nat) (messages : List ChatMessage) : Option (List Nat) :=
  let payload := chatRequestPayload env apiKey version modelEnum messages
  if payload.length < 4294967296 then
    some (0 :: toBE32 payload.length ++ payload)
  else
    none

end OWB

namespace OWB

lemma encodeVarint_ne_nil (v : Nat) : encodeVarint v ≠ [] := by
  rw [encodeVarint_eq]; split <;> simp

lemma decodeVarint_cons (b : Nat) (bs : List Nat) :
    decodeVarint (b :: bs) = b % 128 + 128 * decodeVarint bs := rfl

lemma getLast?_cons_of_ne_nil {α : Type} (x : α) {l : List α} (h : l ≠ []) :
    (x :: l).getLast? = l.getLast? := by
  cases l with
  | nil => exact absurd rfl h
  | cons y ys => simp [List.getLast?_cons_cons]

lemma dropLast_cons_of_ne_nil' {α : Type} (x : α) {l : List α} (h : l ≠ []) :
    (x :: l).dropLast = x :: l.dropLast := by
  cases l with
  | nil => exact absurd rfl h
  | cons y ys => rfl

lemma fromBE32_toBE32 (n : Nat) (h : n < 4294967296) :
    fromBE32 (toBE32 n) = n := by
  simp only [toBE32, fromBE32, List.foldl]
  omega

end OWB

/-- C10: for every non-negative integer `v`, `encodeVarint` produces a
    well-formed little-endian base-128 varint: every byte but the last has
    the continuation bit set (value in `[128, 256)`), the last byte does not
    (value below `128`), and the standard decoder (summing the 7-bit groups
    `(b_i & 0x7F) << 7*i`) reconstructs `v`. -/
theorem OWB.c10_varint_roundtrip : ∀ v : Nat,
    (∀ b ∈ (OWB.encodeVarint v).dropLast, 128 ≤ b ∧ b < 256) ∧
    (∀ b, (OWB.encodeVarint v).getLast? = some b → b < 128) ∧
    OWB.decodeVarint (OWB.encodeVarint v) = v := by
  intro v
  induction v using Nat.strong_induction_on with
  | _ v ih =>
    by_cases h : v > 127
    · have hlt : v / 128 < v := Nat.div_lt_self (by omega) (by omega)
      have hrec := ih (v / 128) hlt
      have hne := OWB.encodeVarint_ne_nil (v / 128)
      have heq : OWB.encodeVarint v = (v % 128 + 128) :: OWB.encodeVarint (v / 128) := by
        rw [OWB.encodeVarint_eq]; simp [h]
      rw [heq]
      refine ⟨?_, ?_, ?_⟩
      · intro b hb
        rw [OWB.dropLast_cons_of_ne_nil' _ hne] at hb
        rcases List.mem_cons.mp hb with hb2 | hb2
        · omega
        · exact hrec.1 b hb2
      · intro b hb
        rw [OWB.getLast?_cons_of_ne_nil _ hne] at hb
        exact hrec.2.1 b hb
      · rw [OWB.decodeVarint_cons, hrec.2.2]
        omega
    · have heq : OWB.encodeVarint v = [v] := by
        rw [OWB.encodeVarint_eq]; simp [h]
      rw [heq]
      refine ⟨?_, ?_, ?_⟩
      · intro b hb; simp at hb
      · intro b hb
        rw [List.getLast?_singleton] at hb
        injection hb with hbv
        omega
      · simp [OWB.decodeVarint]
        omega

/-- Witness for C10 at `v = 300`: `encodeVarint 300 = [172, 2]`; the first
    byte is in `[128, 256)`, the last is below `128`, and decoding gives
    back `300`. -/
theorem OWB.c10_varint_roundtrip_witness :
    (128 ≤ 172 ∧ 172 < 256) ∧ 2 < 128 ∧
    OWB.decodeVarint (OWB.encodeVarint 300) = 300 :=
  ⟨(OWB.c10_varint_roundtrip 300).1 172 (by decide),
   (OWB.c10_varint_roundtrip 300).2.1 2 (by decide),
   (OWB.c10_varint_roundtrip 300).2.2⟩

/-- C3: encoding field number 1 with the string "hi" via `encodeString`
    yields exactly the bytes `[0x0A, 0x02, 0x68, 0x69]`: the tag byte for
    field 1 / wire type 2, a length byte of 2, then the two ASCII bytes. -/
theorem OWB.c3_encode_field1_hi :
    OWB.encodeString 1 "hi" = [0x0A, 0x02, 0x68, 0x69] := by decide

/-- C1: whenever `buildChatRequest` produces a frame, that frame is exactly
    one flag byte 0, then the 4-byte big-endian length of the encoded
    payload, then the payload itself; its total length is payload length
    plus 5.  (The length prefix is faithful: reading the four bytes back
    big-endian gives the payload length.) -/
theorem OWB.c1_request_framing :
    ∀ (env : OWB.ReqEnv) (apiKey version : String) (modelEnum : Nat)
      (messages : List OWB.ChatMessage) (frame : List Nat),
    OWB.buildChatRequest env apiKey version modelEnum messages = some frame →
    frame = 0 :: OWB.toBE32 (OWB.chatRequestPayload env apiKey version modelEnum messages).length
        ++ OWB.chatRequestPayload env apiKey version modelEnum messages ∧
    OWB.fromBE32 (OWB.toBE32 (OWB.chatRequestPayload env apiKey version modelEnum messages).length)
        = (OWB.chatRequestPayload env apiKey version modelEnum messages).length ∧
    frame.length = (OWB.chatRequestPayload env apiKey version modelEnum messages).length + 5 := by
  intro env apiKey version modelEnum messages frame h
  simp only [OWB.buildChatRequest] at h
  split at h
  · next hlt =>
    injection h with h2
    subst h2
    refine ⟨rfl, OWB.fromBE32_toBE32 _ hlt, ?_⟩
    simp [OWB.toBE32]
  · simp at h

namespace OWB

/-- Spec-side description of the chat-turn text (C2): the content of the last
    message whose role is `user`, and the empty string when no user message
    exists.  Computed independently of the implementation (reverse the list,
    take the first user message). -/
def specLastUserText (messages : List ChatMessage) : String :=
  match messages.reverse.find? (fun m => m.role == Role.user) with
  | some m => m.content
  | none => ""

lemma find?_append_of_some {α : Type} (p : α → Bool) (l₁ l₂ : List α) (a : α)
    (h : l₁.find? p = some a) : (l₁ ++ l₂).find? p = some a := by
  induction l₁ with
  | nil => cases h
  | cons x l ih =>
    by_cases hpx : p x
    · rw [List.find?_cons_of_pos _ hpx] at h
      simpa [List.find?_cons_of_pos _ hpx] using h
    · rw [List.find?_cons_of_neg _ hpx] at h
      simpa [List.find?_cons_of_neg _ hpx] using ih h

lemma find?_append_of_none {α : Type} (p : α → Bool) (l₁ l₂ : List α)
    (h : l₁.find? p = none) : (l₁ ++ l₂).find? p = l₂.find? p := by
  induction l₁ with
  | nil => rfl
  | cons x l ih =>
    by_cases hpx : p x
    · rw [List.find?_cons_of_pos _ hpx] at h
      cases h
    · rw [List.find?_cons_of_neg _ hpx] at h
      simpa [List.find?_cons_of_neg _ hpx] using ih h

/-- The last element of `l.filter p` is the first element of `l.reverse`
    satisfying `p`: `filter(...).pop()` agrees with search-from-the-end. -/
lemma filter_getLast?_eq_reverse_find? {α : Type} (p : α → Bool) :
    ∀ l : List α, (l.filter p).getLast? = l.reverse.find? p := by
  intro l
  induction l with
  | nil => rfl
  | cons a l ih =>
    rw [List.reverse_cons]
    by_cases hpa : p a
    · simp only [List.filter_cons, hpa, if_pos]
      cases hf : (l.filter p).getLast? with
      | none =>
        have hnil : l.filter p = [] := List.getLast?_eq_none_iff.mp hf
        have hrn : l.reverse.find? p = none := by rw [← ih, hf]
        rw [hnil, find?_append_of_none _ _ _ hrn]
        simp [List.find?_cons_of_pos _ hpa]
      | some b =>
        have hne : l.filter p ≠ [] := by intro hn; rw [hn] at hf; cases hf
        have hrs : l.reverse.find? p = some b := by rw [← ih, hf]
        rw [getLast?_cons_of_ne_nil _ hne, hf, find?_append_of_some _ _ _ _ hrs]
    · simp only [List.filter_cons, hpa, Bool.false_eq_true, if_neg, not_false_iff]
      cases hfr : l.reverse.find? p with
      | some b => rw [find?_append_of_some _ _ _ _ hfr, ih, hfr]
      | none =>
        rw [find?_append_of_none _ _ _ hfr, ih, hfr]
        simp [List.find?_cons_of_neg _ hpa]

end OWB

/-- C2: the chat-turn text encoded into the wire request equals the content
    of the last message whose role is `user` (the empty string when no user
    message exists, the empty list included), and an empty message list still
    builds a well-formed frame.  Earlier turns do not appear in the prompt
    field: the payload is exactly metadata, one chat message carrying that
    single prompt, and the model field. -/
theorem OWB.c2_prompt_is_last_user_message :
    (∀ messages : List OWB.ChatMessage,
        OWB.lastUserPrompt messages = OWB.specLastUserText messages) ∧
    (∀ (env : OWB.ReqEnv) (apiKey version : String) (modelEnum : Nat)
        (messages : List OWB.ChatMessage),
        OWB.chatRequestPayload env apiKey version modelEnum messages =
          OWB.encodeMessage 1 (OWB.encodeMetadata env apiKey version) ++
          OWB.encodeMessage 2 (OWB.encodeChatMessage env OWB.ChatMessageSourceUSER
            (OWB.specLastUserText messages)) ++
          OWB.encodeVarintField 4 modelEnum) ∧
    (OWB.specLastUserText [] = "") ∧
    (∀ (env : OWB.ReqEnv) (apiKey version : String) (modelEnum : Nat),
        (OWB.chatRequestPayload env apiKey version modelEnum []).length < 4294967296 →
        OWB.buildChatRequest env apiKey version modelEnum [] =
          some (0 :: OWB.toBE32 (OWB.chatRequestPayload env apiKey version modelEnum []).length
            ++ OWB.chatRequestPayload env apiKey version modelEnum [])) := by
  have h1 : ∀ messages : List OWB.ChatMessage,
      OWB.lastUserPrompt messages = OWB.specLastUserText messages := by
    intro messages
    unfold OWB.lastUserPrompt OWB.specLastUserText
    rw [OWB.filter_getLast?_eq_reverse_find?]
  refine ⟨h1, ?_, rfl, ?_⟩
  · intro env apiKey version modelEnum messages
    unfold OWB.chatRequestPayload
    rw [h1]
  · intro env apiKey version modelEnum hlen
    simp only [OWB.buildChatRequest]
    rw [if_pos hlen]

namespace OWB

/-- A concrete build environment for witnesses. -/
def envW : ReqEnv :=
  { metaNow := 1700000000000, sessionId := "sess-0001",
    msgNow := 1700000000123, msgId := "msg-0001", convId := "conv-0001" }

/-- A concrete message list for witnesses. -/
def msgsW : List ChatMessage := [{ role := Role.user, content := "hi" }]

/-- The payload built from the concrete witness inputs. -/
def payloadW : List Nat := chatRequestPayload envW "key" "1.0.0" 353 msgsW

end OWB

set_option maxRecDepth 100000 in
/-- Witness for C1: at the concrete inputs, the frame returned by
    `buildChatRequest` reads back its payload length and has total length
    payload + 5. -/
theorem OWB.c1_request_framing_witness :
    OWB.fromBE32 (OWB.toBE32 OWB.payloadW.length) = OWB.payloadW.length ∧
    (0 :: OWB.toBE32 OWB.payloadW.length ++ OWB.payloadW).length = OWB.payloadW.length + 5 := by
  have h := OWB.c1_request_framing OWB.envW "key" "1.0.0" 353 OWB.msgsW
    (0 :: OWB.toBE32 OWB.payloadW.length ++ OWB.payloadW) (by decide)
  exact ⟨h.2.1, h.2.2⟩

set_option maxRecDepth 100000 in
/-- Witness for C2: with an empty message list the request still builds,
    producing the well-formed frame. -/
theorem OWB.c2_prompt_is_last_user_message_witness :
    OWB.buildChatRequest OWB.envW "key" "1.0.0" 353 [] =
      some (0 :: OWB.toBE32 (OWB.chatRequestPayload OWB.envW "key" "1.0.0" 353 []).length
        ++ OWB.chatRequestPayload OWB.envW "key" "1.0.0" 353 []) :=
  OWB.c2_prompt_is_last_user_message.2.2.2 OWB.envW "key" "1.0.0" 353 (by decide)

namespace OWB

/-- The protobuf model enum members referenced by the registry
    (`src/plugin/models.ts`).  Their numeric values live in the absent
    `types.ts`; every claim here depends only on which member a name maps
    to, so the enum is embedded as an inductive type. -/
inductive ModelEnum
  | CLAUDE_3_OPUS_20240229
  | CLAUDE_3_SONNET_20240229
  | CLAUDE_3_HAIKU_20240307
  | CLAUDE_3_5_SONNET_20241022
  | CLAUDE_3_5_HAIKU_20241022
  | CLAUDE_3_7_SONNET_20250219
  | CLAUDE_3_7_SONNET_20250219_THINKING
  | CLAUDE_4_OPUS
  | CLAUDE_4_OPUS_THINKING
  | CLAUDE_4_SONNET
  | CLAUDE_4_SONNET_THINKING
  | CLAUDE_4_1_OPUS
  | CLAUDE_4_1_OPUS_THINKING
  | CLAUDE_4_5_SONNET
  | CLAUDE_4_5_SONNET_THINKING
  | CLAUDE_4_5_SONNET_1M
  | CLAUDE_4_5_OPUS
  | CLAUDE_4_5_OPUS_THINKING
  | CLAUDE_CODE
  | GPT_4
  | GPT_4_1106_PREVIEW
  | GPT_4O_2024_08_06
  | GPT_4O_MINI_2024_07_18
  | GPT_4_5
  | GPT_4_1_2025_04_14
  | GPT_4_1_MINI_2025_04_14
  | GPT_4_1_NANO_2025_04_14
  | GPT_5
  | GPT_5_NANO
  | GPT_5_LOW
  | GPT_5_HIGH
  | GPT_5_CODEX
  | GPT_5_2_MEDIUM
  | GPT_5_2_LOW
  | GPT_5_2_HIGH
  | GPT_5_2_XHIGH
  | O1
  | O1_MINI
  | O1_PREVIEW
  | O3
  | O3_MINI
  | O3_LOW
  | O3_HIGH
  | O3_PRO
  | O3_PRO_LOW
  | O3_PRO_HIGH
  | O4_MINI
  | O4_MINI_LOW
  | O4_MINI_HIGH
  | GEMINI_1_0_PRO
  | GEMINI_1_5_PRO
  | GEMINI_2_0_FLASH
  | GEMINI_2_5_PRO
  | GEMINI_2_5_FLASH
  | GEMINI_2_5_FLASH_THINKING
  | GEMINI_2_5_FLASH_LITE
  | GEMINI_3_0_PRO_LOW
  | GEMINI_3_0_PRO_HIGH
  | DEEPSEEK_V3
  | DEEPSEEK_V3_2
  | DEEPSEEK_R1
  | DEEPSEEK_R1_FAST
  | DEEPSEEK_R1_SLOW
  | LLAMA_3_1_8B_INSTRUCT
  | LLAMA_3_1_70B_INSTRUCT
  | LLAMA_3_1_405B_INSTRUCT
  | LLAMA_3_3_70B_INSTRUCT
  | LLAMA_3_3_70B_INSTRUCT_R1
  | QWEN_2_5_7B_INSTRUCT
  | QWEN_2_5_32B_INSTRUCT
  | QWEN_2_5_72B_INSTRUCT
  | QWEN_3_235B_INSTRUCT
  | QWEN_3_CODER_480B_INSTRUCT
  | GROK_2
  | GROK_3
  | GROK_3_MINI_REASONING
  | GROK_CODE_FAST
  | MISTRAL_7B
  | KIMI_K2
  | KIMI_K2_THINKING
  | GLM_4_5
  | GLM_4_6
  | MINIMAX_M2
  | SWE_1_5
  | SWE_1_5_THINKING
deriving DecidableEq, Repr

/-- `MODEL_NAME_TO_ENUM` (models.ts:22-210), in source order. -/
def MODEL_NAME_TO_ENUM : List (String × ModelEnum) := [
  ("claude-3-opus", ModelEnum.CLAUDE_3_OPUS_20240229),
  ("claude-3-opus-20240229", ModelEnum.CLAUDE_3_OPUS_20240229),
  ("claude-3-sonnet", ModelEnum.CLAUDE_3_SONNET_20240229),
  ("claude-3-sonnet-20240229", ModelEnum.CLAUDE_3_SONNET_20240229),
  ("claude-3-haiku", ModelEnum.CLAUDE_3_HAIKU_20240307),
  ("claude-3-haiku-20240307", ModelEnum.CLAUDE_3_HAIKU_20240307),
  ("claude-3.5-sonnet", ModelEnum.CLAUDE_3_5_SONNET_20241022),
  ("claude-3-5-sonnet", ModelEnum.CLAUDE_3_5_SONNET_20241022),
  ("claude-3-5-sonnet-20241022", ModelEnum.CLAUDE_3_5_SONNET_20241022),
  ("claude-3.5-haiku", ModelEnum.CLAUDE_3_5_HAIKU_20241022),
  ("claude-3-5-haiku", ModelEnum.CLAUDE_3_5_HAIKU_20241022),
  ("claude-3-5-haiku-20241022", ModelEnum.CLAUDE_3_5_HAIKU_20241022),
  ("claude-3.7-sonnet", ModelEnum.CLAUDE_3_7_SONNET_20250219),
  ("claude-3-7-sonnet", ModelEnum.CLAUDE_3_7_SONNET_20250219),
  ("claude-3-7-sonnet-20250219", ModelEnum.CLAUDE_3_7_SONNET_20250219),
  ("claude-3.7-sonnet-thinking", ModelEnum.CLAUDE_3_7_SONNET_20250219_THINKING),
  ("claude-3-7-sonnet-thinking", ModelEnum.CLAUDE_3_7_SONNET_20250219_THINKING),
  ("claude-4-opus", ModelEnum.CLAUDE_4_OPUS),
  ("claude-4-opus-thinking", ModelEnum.CLAUDE_4_OPUS_THINKING),
  ("claude-4-sonnet", ModelEnum.CLAUDE_4_SONNET),
  ("claude-4-sonnet-thinking", ModelEnum.CLAUDE_4_SONNET_THINKING),
  ("claude-4.1-opus", ModelEnum.CLAUDE_4_1_OPUS),
  ("claude-4-1-opus", ModelEnum.CLAUDE_4_1_OPUS),
  ("claude-4.1-opus-thinking", ModelEnum.CLAUDE_4_1_OPUS_THINKING),
  ("claude-4-1-opus-thinking", ModelEnum.CLAUDE_4_1_OPUS_THINKING),
  ("claude-4.5-sonnet", ModelEnum.CLAUDE_4_5_SONNET),
  ("claude-4-5-sonnet", ModelEnum.CLAUDE_4_5_SONNET),
  ("claude-4.5-sonnet-thinking", ModelEnum.CLAUDE_4_5_SONNET_THINKING),
  ("claude-4-5-sonnet-thinking", ModelEnum.CLAUDE_4_5_SONNET_THINKING),
  ("claude-4.5-sonnet-1m", ModelEnum.CLAUDE_4_5_SONNET_1M),
  ("claude-4-5-sonnet-1m", ModelEnum.CLAUDE_4_5_SONNET_1M),
  ("claude-4.5-opus", ModelEnum.CLAUDE_4_5_OPUS),
  ("claude-4-5-opus", ModelEnum.CLAUDE_4_5_OPUS),
  ("claude-4.5-opus-thinking", ModelEnum.CLAUDE_4_5_OPUS_THINKING),
  ("claude-4-5-opus-thinking", ModelEnum.CLAUDE_4_5_OPUS_THINKING),
  ("claude-code", ModelEnum.CLAUDE_CODE),
  ("gpt-4", ModelEnum.GPT_4),
  ("gpt-4-turbo", ModelEnum.GPT_4_1106_PREVIEW),
  ("gpt-4-1106-preview", ModelEnum.GPT_4_1106_PREVIEW),
  ("gpt-4o", ModelEnum.GPT_4O_2024_08_06),
  ("gpt-4o-2024-08-06", ModelEnum.GPT_4O_2024_08_06),
  ("gpt-4o-mini", ModelEnum.GPT_4O_MINI_2024_07_18),
  ("gpt-4o-mini-2024-07-18", ModelEnum.GPT_4O_MINI_2024_07_18),
  ("gpt-4.5", ModelEnum.GPT_4_5),
  ("gpt-4-5", ModelEnum.GPT_4_5),
  ("gpt-4.1", ModelEnum.GPT_4_1_2025_04_14),
  ("gpt-4-1", ModelEnum.GPT_4_1_2025_04_14),
  ("gpt-4.1-mini", ModelEnum.GPT_4_1_MINI_2025_04_14),
  ("gpt-4-1-mini", ModelEnum.GPT_4_1_MINI_2025_04_14),
  ("gpt-4.1-nano", ModelEnum.GPT_4_1_NANO_2025_04_14),
  ("gpt-4-1-nano", ModelEnum.GPT_4_1_NANO_2025_04_14),
  ("gpt-5", ModelEnum.GPT_5),
  ("gpt-5-nano", ModelEnum.GPT_5_NANO),
  ("gpt-5-low", ModelEnum.GPT_5_LOW),
  ("gpt-5-high", ModelEnum.GPT_5_HIGH),
  ("gpt-5-codex", ModelEnum.GPT_5_CODEX),
  ("gpt-5.2", ModelEnum.GPT_5_2_MEDIUM),
  ("gpt-5-2", ModelEnum.GPT_5_2_MEDIUM),
  ("gpt-5.2-low", ModelEnum.GPT_5_2_LOW),
  ("gpt-5-2-low", ModelEnum.GPT_5_2_LOW),
  ("gpt-5.2-high", ModelEnum.GPT_5_2_HIGH),
  ("gpt-5-2-high", ModelEnum.GPT_5_2_HIGH),
  ("gpt-5.2-xhigh", ModelEnum.GPT_5_2_XHIGH),
  ("gpt-5-2-xhigh", ModelEnum.GPT_5_2_XHIGH),
  ("o1", ModelEnum.O1),
  ("o1-mini", ModelEnum.O1_MINI),
  ("o1-preview", ModelEnum.O1_PREVIEW),
  ("o3", ModelEnum.O3),
  ("o3-mini", ModelEnum.O3_MINI),
  ("o3-low", ModelEnum.O3_LOW),
  ("o3-high", ModelEnum.O3_HIGH),
  ("o3-pro", ModelEnum.O3_PRO),
  ("o3-pro-low", ModelEnum.O3_PRO_LOW),
  ("o3-pro-high", ModelEnum.O3_PRO_HIGH),
  ("o4-mini", ModelEnum.O4_MINI),
  ("o4-mini-low", ModelEnum.O4_MINI_LOW),
  ("o4-mini-high", ModelEnum.O4_MINI_HIGH),
  ("gemini-1.0-pro", ModelEnum.GEMINI_1_0_PRO),
  ("gemini-1-0-pro", ModelEnum.GEMINI_1_0_PRO),
  ("gemini-1.5-pro", ModelEnum.GEMINI_1_5_PRO),
  ("gemini-1-5-pro", ModelEnum.GEMINI_1_5_PRO),
  ("gemini-2.0-flash", ModelEnum.GEMINI_2_0_FLASH),
  ("gemini-2-0-flash", ModelEnum.GEMINI_2_0_FLASH),
  ("gemini-2.5-pro", ModelEnum.GEMINI_2_5_PRO),
  ("gemini-2-5-pro", ModelEnum.GEMINI_2_5_PRO),
  ("gemini-2.5-flash", ModelEnum.GEMINI_2_5_FLASH),
  ("gemini-2-5-flash", ModelEnum.GEMINI_2_5_FLASH),
  ("gemini-2.5-flash-thinking", ModelEnum.GEMINI_2_5_FLASH_THINKING),
  ("gemini-2-5-flash-thinking", ModelEnum.GEMINI_2_5_FLASH_THINKING),
  ("gemini-2.5-flash-lite", ModelEnum.GEMINI_2_5_FLASH_LITE),
  ("gemini-2-5-flash-lite", ModelEnum.GEMINI_2_5_FLASH_LITE),
  ("gemini-3.0-pro-low", ModelEnum.GEMINI_3_0_PRO_LOW),
  ("gemini-3-0-pro-low", ModelEnum.GEMINI_3_0_PRO_LOW),
  ("gemini-3.0-pro-high", ModelEnum.GEMINI_3_0_PRO_HIGH),
  ("gemini-3-0-pro-high", ModelEnum.GEMINI_3_0_PRO_HIGH),
  ("deepseek-v3", ModelEnum.DEEPSEEK_V3),
  ("deepseek-v3-2", ModelEnum.DEEPSEEK_V3_2),
  ("deepseek-r1", ModelEnum.DEEPSEEK_R1),
  ("deepseek-r1-fast", ModelEnum.DEEPSEEK_R1_FAST),
  ("deepseek-r1-slow", ModelEnum.DEEPSEEK_R1_SLOW),
  ("llama-3.1-8b", ModelEnum.LLAMA_3_1_8B_INSTRUCT),
  ("llama-3-1-8b", ModelEnum.LLAMA_3_1_8B_INSTRUCT),
  ("llama-3.1-70b", ModelEnum.LLAMA_3_1_70B_INSTRUCT),
  ("llama-3-1-70b", ModelEnum.LLAMA_3_1_70B_INSTRUCT),
  ("llama-3.1-405b", ModelEnum.LLAMA_3_1_405B_INSTRUCT),
  ("llama-3-1-405b", ModelEnum.LLAMA_3_1_405B_INSTRUCT),
  ("llama-3.3-70b", ModelEnum.LLAMA_3_3_70B_INSTRUCT),
  ("llama-3-3-70b", ModelEnum.LLAMA_3_3_70B_INSTRUCT),
  ("llama-3.3-70b-r1", ModelEnum.LLAMA_3_3_70B_INSTRUCT_R1),
  ("llama-3-3-70b-r1", ModelEnum.LLAMA_3_3_70B_INSTRUCT_R1),
  ("qwen-2.5-7b", ModelEnum.QWEN_2_5_7B_INSTRUCT),
  ("qwen-2-5-7b", ModelEnum.QWEN_2_5_7B_INSTRUCT),
  ("qwen-2.5-32b", ModelEnum.QWEN_2_5_32B_INSTRUCT),
  ("qwen-2-5-32b", ModelEnum.QWEN_2_5_32B_INSTRUCT),
  ("qwen-2.5-72b", ModelEnum.QWEN_2_5_72B_INSTRUCT),
  ("qwen-2-5-72b", ModelEnum.QWEN_2_5_72B_INSTRUCT),
  ("qwen-3-235b", ModelEnum.QWEN_3_235B_INSTRUCT),
  ("qwen-3-coder-480b", ModelEnum.QWEN_3_CODER_480B_INSTRUCT),
  ("grok-2", ModelEnum.GROK_2),
  ("grok-3", ModelEnum.GROK_3),
  ("grok-3-mini", ModelEnum.GROK_3_MINI_REASONING),
  ("grok-code-fast", ModelEnum.GROK_CODE_FAST),
  ("mistral-7b", ModelEnum.MISTRAL_7B),
  ("kimi-k2", ModelEnum.KIMI_K2),
  ("kimi-k2-thinking", ModelEnum.KIMI_K2_THINKING),
  ("glm-4.5", ModelEnum.GLM_4_5),
  ("glm-4-5", ModelEnum.GLM_4_5),
  ("glm-4.6", ModelEnum.GLM_4_6),
  ("glm-4-6", ModelEnum.GLM_4_6),
  ("minimax-m2", ModelEnum.MINIMAX_M2),
  ("swe-1.5", ModelEnum.SWE_1_5),
  ("swe-1-5", ModelEnum.SWE_1_5),
  ("swe-1.5-thinking", ModelEnum.SWE_1_5_THINKING),
  ("swe-1-5-thinking", ModelEnum.SWE_1_5_THINKING)]
/-- Property access on a JS object literal, `OBJ[key]`: the last binding for
    a key wins (the registry has no duplicate keys, so this matters only for
    fidelity). -/
def jsRecordGet {β : Type} (fields : List (String × β)) (key : String) : Option β :=
  (fields.reverse.find? (fun p => p.1 == key)).map (fun p => p.2)

/-- `modelNameToEnum` (models.ts:329-332): lower-case, trim, look the name
    up, and default to `CLAUDE_3_5_SONNET_20241022` when unknown. -/
def modelNameToEnum (modelName : String) : ModelEnum :=
  match jsRecordGet MODEL_NAME_TO_ENUM (jsTrim (lowerStr modelName)) with
  | some v => v
  | none => ModelEnum.CLAUDE_3_5_SONNET_20241022

/-- Identify `.` and `-` version separators by replacing every `.` with `-`:
    two names differ only in `.` versus `-` separators exactly when their
    images under this map coincide. -/
def normSep (s : String) : String :=
  String.mk (s.data.map (fun c => if c = '.' then '-' else c))

end OWB

set_option maxRecDepth 100000 in
/-- C4: any two registry names that differ only in `.` versus `-` version
    separators resolve to the same protocol enum member. -/
theorem OWB.c4_dot_dash_aliases :
    ∀ p ∈ OWB.MODEL_NAME_TO_ENUM, ∀ q ∈ OWB.MODEL_NAME_TO_ENUM,
      OWB.normSep p.1 = OWB.normSep q.1 →
      OWB.modelNameToEnum p.1 = OWB.modelNameToEnum q.1 := by
  have hA : ∀ p ∈ OWB.MODEL_NAME_TO_ENUM,
      OWB.jsTrim (OWB.lowerStr p.1) = p.1 := by
    have h : OWB.MODEL_NAME_TO_ENUM.all
        (fun p => decide (OWB.jsTrim (OWB.lowerStr p.1) = p.1)) = true := by decide
    intro p hp
    exact of_decide_eq_true (List.all_eq_true.mp h p hp)
  have hE : ∀ p ∈ OWB.MODEL_NAME_TO_ENUM,
      OWB.jsRecordGet OWB.MODEL_NAME_TO_ENUM p.1 = some p.2 := by
    have h : OWB.MODEL_NAME_TO_ENUM.all
        (fun p => decide (OWB.jsRecordGet OWB.MODEL_NAME_TO_ENUM p.1 = some p.2)) = true := by
      decide
    intro p hp
    exact of_decide_eq_true (List.all_eq_true.mp h p hp)
  have hF : ∀ p ∈ OWB.MODEL_NAME_TO_ENUM,
      OWB.jsRecordGet OWB.MODEL_NAME_TO_ENUM (OWB.normSep p.1) = some p.2 := by
    have h : OWB.MODEL_NAME_TO_ENUM.all
        (fun p => decide (OWB.jsRecordGet OWB.MODEL_NAME_TO_ENUM (OWB.normSep p.1) = some p.2))
        = true := by decide
    intro p hp
    exact of_decide_eq_true (List.all_eq_true.mp h p hp)
  intro p hp q hq hnorm
  have hmp : OWB.modelNameToEnum p.1 = p.2 := by
    unfold OWB.modelNameToEnum
    rw [hA p hp, hE p hp]
  have hmq : OWB.modelNameToEnum q.1 = q.2 := by
    unfold OWB.modelNameToEnum
    rw [hA q hq, hE q hq]
  have h1 := hF p hp
  have h2 := hF q hq
  rw [hnorm, h2] at h1
  injection h1 with h3
  rw [hmp, hmq, h3]

set_option maxRecDepth 100000 in
/-- Witness for C4: the dot and dash forms of claude 4.5 sonnet resolve to
    the same enum member. -/
theorem OWB.c4_dot_dash_aliases_witness :
    OWB.modelNameToEnum "claude-4.5-sonnet" = OWB.modelNameToEnum "claude-4-5-sonnet" :=
  OWB.c4_dot_dash_aliases
    ("claude-4.5-sonnet", OWB.ModelEnum.CLAUDE_4_5_SONNET) (by decide)
    ("claude-4-5-sonnet", OWB.ModelEnum.CLAUDE_4_5_SONNET) (by decide)
    (by decide)

namespace OWB

/-- A resolved model: canonical identifier plus optional variant, the result
    shape `{modelId, variant?}` checked by `tests/unit/variant.test.ts`. -/
structure ResolvedModel where
  modelId : String
  variant : Option String
deriving DecidableEq, Repr

/-- Modelled from the spec: the canonical models carrying variants, with the
    variant tiers the registry exposes as `-low`/`-high`/`-xhigh` aliases.
    The variant-aware resolver lives in a revision of
    `src/plugin/models.ts` that is not among the sources (only its unit
    test `tests/unit/variant.test.ts` is). -/
def variantRegistry : List (String × List String) :=
  [("gemini-3.0-pro", ["low", "high"]),
   ("gpt-5.2", ["low", "high", "xhigh"]),
   ("o3-pro", ["low", "high"])]

/-- Modelled from the spec: `resolveModel(name, variantOverride?)`
    (spec section 4.1, exercised by `tests/unit/variant.test.ts`): matching
    is case-insensitive and trims whitespace; dot- and dash-separated forms
    are aliases of one canonical entry; a name may carry a variant as a
    trailing `-<variant>` suffix or a `:<variant>` suffix; the explicit
    override, when present, takes precedence over a name-derived variant;
    unknown names resolve to the documented default model. -/
def resolveModel (name : String) (variantOverride : Option String) : ResolvedModel :=
  let n := jsTrim (lowerStr name)
  let base := String.mk (n.data.takeWhile (fun c => c ≠ ':'))
  let colonVar : Option String :=
    if n.data.contains ':' then
      some (String.mk ((n.data.dropWhile (fun c => c ≠ ':')).drop 1))
    else none
  match variantRegistry.find? (fun e => normSep e.1 == normSep base) with
  | some e => { modelId := e.1, variant := variantOverride.orElse (fun _ => colonVar) }
  | none =>
    match variantRegistry.findSome?
        (fun e => (e.2.find? (fun v => normSep base == normSep (e.1 ++ "-" ++ v))).map
          (fun v => (e.1, v))) with
    | some c => { modelId := c.1, variant := variantOverride.orElse (fun _ => some c.2) }
    | none => { modelId := "claude-3.5-sonnet", variant := variantOverride.orElse (fun _ => colonVar) }

end OWB

/-- C5: resolving "gemini-3.0-pro" yields canonical "gemini-3.0-pro" with no
    variant; resolving "gemini-3-0-pro-high" splits the trailing variant
    suffix off and yields canonical "gemini-3.0-pro" with variant "high";
    an explicit override takes precedence over the suffix-derived variant. -/
theorem OWB.c5_gemini_variant_resolution :
    OWB.resolveModel "gemini-3.0-pro" none =
      { modelId := "gemini-3.0-pro", variant := none } ∧
    OWB.resolveModel "gemini-3-0-pro-high" none =
      { modelId := "gemini-3.0-pro", variant := some "high" } ∧
    OWB.resolveModel "gemini-3-0-pro-high" (some "low") =
      { modelId := "gemini-3.0-pro", variant := some "low" } :=
  ⟨by decide, by decide, by decide⟩

namespace OWB

/-- The character a text brace opens with (written via `Char.ofNat`). -/
def lbraceChar : Char := Char.ofNat 123

/-- The closing text brace. -/
def rbraceChar : Char := Char.ofNat 125

/-- First step of `extractTextFromChunk` (grpc-client.ts:183-186): replace
    every character outside printable ASCII `0x20..0x7E` and `\n` by a
    space, then trim.  The input is the chunk after `Buffer.toString('utf8')`
    (that decoding is total and the theorems below quantify over every
    possible decoded string, so it needs no separate model). -/
def toReadable (s : String) : List Char :=
  jsTrimList (s.data.map (fun c =>
    if (32 ≤ c.toNat ∧ c.toNat ≤ 126) ∨ c = '\n' then c else ' '))

/-- Backtracking semantics of `\s*([^0]+)` anchored right after a `*`
    (the regex `/\*\s*([^0]+)/` of grpc-client.ts:189):
    the greedy whitespace run is consumed first; the capture then takes the
    maximal nonempty run of non-`'0'` characters, giving one whitespace
    character back when the run would otherwise be empty; no match when
    nothing usable follows. -/
def markerAttempt (rest : List Char) : Option (List Char) :=
  match rest.dropWhile isJsWs with
  | c :: cs =>
    if c = '0' then (rest.takeWhile isJsWs).getLast?.map (fun w => [w])
    else some ((c :: cs).takeWhile (fun d => d ≠ '0'))
  | [] => (rest.takeWhile isJsWs).getLast?.map (fun w => [w])

/-- Leftmost match of `/\*\s*([^0]+)/`: scan for each `*` in turn and try
    `markerAttempt` on what follows. -/
def markerFind : List Char → Option (List Char)
  | [] => none
  | c :: cs =>
    if c = '*' then
      match markerAttempt cs with
      | some cap => some cap
      | none => markerFind cs
    else markerFind cs

/-- `readable.split(/\s{2,}/)` (grpc-client.ts:195): split on maximal runs
    of two or more whitespace characters.  The first argument is fuel that
    keeps the recursion structural; a fuel equal to the list length always
    suffices, since every step strictly shortens the list. -/
def splitGapsGo : Nat → List Char → List Char → List (List Char)
  | _, [], acc => [acc.reverse]
  | 0, cs, acc => [acc.reverse ++ cs]
  | fuel + 1, c :: rest, acc =>
    if isJsWs c && (match rest with | d :: _ => isJsWs d | [] => false) then
      acc.reverse :: splitGapsGo fuel (rest.dropWhile isJsWs) []
    else
      splitGapsGo fuel rest (c :: acc)

/-- `readable.split(/\s{2,}/)`. -/
def splitGaps (cs : List Char) : List (List Char) :=
  splitGapsGo cs.length cs []

/-- `part.match(/^[a-f0-9-]+$/i)` character class. -/
def isHexish (c : Char) : Bool :=
  ('a' ≤ c ∧ c ≤ 'f') ∨ ('A' ≤ c ∧ c ≤ 'F') ∨ c.isDigit ∨ c = '-'

/-- `[\s\d*]`, the class stripped from the front by
    `part.replace(/^[\s\d*]+/, '')`. -/
def isLeadJunk (c : Char) : Bool :=
  isJsWs c ∨ c.isDigit ∨ c = '*'

/-- `part.replace(/^[\s\d*]+/, '').trim()` (grpc-client.ts:202). -/
def cleanPart (part : List Char) : List Char :=
  jsTrimList (part.dropWhile isLeadJunk)

/-- The fallback loop of `extractTextFromChunk` (grpc-client.ts:196-207):
    the first part that is nonempty, contains no `-`, does not consist
    solely of hex-ish characters, and whose cleaned form is nonempty. -/
def fallbackScan : List (List Char) → Option (List Char)
  | [] => none
  | p :: ps =>
    if p ≠ [] ∧ ¬ p.contains '-' ∧ ¬ (p.all isHexish) then
      let cleaned := cleanPart p
      if cleaned ≠ [] then some cleaned else fallbackScan ps
    else fallbackScan ps

/-- `extractTextFromChunk` (grpc-client.ts:181-210); `toReadable chunk` is
    the `readable` local of the source. -/
def extractTextFromChunk (chunk : String) : String :=
  match markerFind (toReadable chunk) with
  | some cap => String.mk (jsTrimList cap)
  | none =>
    match fallbackScan (splitGaps (toReadable chunk)) with
    | some t => String.mk t
    | none => ""

end OWB

/-- C9: the response extractor is total by construction (it is a Lean
    function on all strings, quantifying over every possible result of the
    total `Buffer.toString('utf8')` decoding); whenever neither the
    marker-based pattern nor the space-delimited-segment fallback recovers
    text from the readable form of a chunk, it returns the empty string. -/
theorem OWB.c9_extractor_total_empty_on_no_match :
    ∀ chunk : String,
      OWB.markerFind (OWB.toReadable chunk) = none →
      OWB.fallbackScan (OWB.splitGaps (OWB.toReadable chunk)) = none →
      OWB.extractTextFromChunk chunk = "" := by
  intro chunk h1 h2
  unfold OWB.extractTextFromChunk
  rw [h1, h2]

/-- Witness for C9: a chunk that looks like a hex identifier matches
    neither path and extracts to the empty string. -/
theorem OWB.c9_extractor_total_empty_on_no_match_witness :
    OWB.extractTextFromChunk "deadbeef-0123" = "" :=
  OWB.c9_extractor_total_empty_on_no_match "deadbeef-0123" (by decide) (by decide)

namespace OWB

/-- Typed transport errors (`WindsurfErrorCode` members used by the two
    streaming entry points). -/
inductive ErrorKind
  | connectionFailed
  | streamError
deriving DecidableEq, Repr

/-- The events the HTTP/2 event loop can deliver to one call: a response
    data chunk (already decoded to the string the extractor sees), the gRPC
    trailers, stream end, a request or connection error, and the expiry of
    the 120000 ms timer that `streamChat` registers (grpc-client.ts:296). -/
inductive StreamEvent
  | data (chunk : String)
  | trailers (status : Option String) (message : Option String)
  | reqEnd
  | reqError (msg : String)
  | connError (msg : String)
  | timerFired
deriving DecidableEq, Repr

/-- The state of the promise returned by `streamChat`: still collecting
    chunks, resolved, or rejected.  A promise settles once; later events
    cannot change the outcome. -/
inductive PromiseOutcome
  | pending (chunks : List String)
  | resolved (text : String)
  | rejected (code : ErrorKind)
deriving DecidableEq, Repr

/-- One event-loop step of `streamChat` (grpc-client.ts:223-303): `data`
    extracts text and keeps nonempty fragments; a non-zero (or absent)
    trailer status rejects with a stream error; `end` resolves with the
    joined chunks; request errors reject with a stream error, connection
    errors with a connection error; the 120000 ms timer resolves with the
    chunks collected so far. -/
def streamChatStep (st : PromiseOutcome) (e : StreamEvent) : PromiseOutcome :=
  match st with
  | .pending cs =>
    match e with
    | .data chunk =>
      if extractTextFromChunk chunk = "" then .pending cs
      else .pending (cs ++ [extractTextFromChunk chunk])
    | .trailers status _ =>
      if status = some "0" then .pending cs else .rejected .streamError
    | .reqEnd => .resolved (String.join cs)
    | .reqError _ => .rejected .streamError
    | .connError _ => .rejected .connectionFailed
    | .timerFired => .resolved (String.join cs)
  | settled => settled

/-- The outcome of `streamChat` on a finite event trace. -/
def streamChatRun (events : List StreamEvent) : PromiseOutcome :=
  events.foldl streamChatStep (.pending [])

/-- The mutable state of `streamChatGenerator` (grpc-client.ts:314-401):
    fragments yielded so far (the consumer drains the queue eagerly), the
    recorded error, and the `done` flag. -/
structure GenState where
  yielded : List String
  err : Option ErrorKind
  done : Bool
deriving DecidableEq, Repr

/-- The observable outcome of `streamChatGenerator` on a finite trace:
    still awaiting events, finished normally, or finished by throwing. -/
inductive GenOutcome
  | awaiting (yielded : List String)
  | finished (yielded : List String)
  | threw (yielded : List String) (code : ErrorKind)
deriving DecidableEq, Repr

/-- One event-loop step of `streamChatGenerator`.  The generator registers
    handlers for `data`, `trailers`, `end` and `error` and nothing else —
    in particular it sets no timer, so `timerFired` has no handler and
    leaves the state unchanged.  A non-zero trailer status only records the
    error (the loop drains and throws after `end`). -/
def genStep (st : GenState) (e : StreamEvent) : GenState :=
  if st.done then st
  else
    match e with
    | .data chunk =>
      if extractTextFromChunk chunk = "" then st
      else { st with yielded := st.yielded ++ [extractTextFromChunk chunk] }
    | .trailers status _ =>
      if status = some "0" then st else { st with err := some .streamError }
    | .reqEnd => { st with done := true }
    | .reqError _ => { st with err := some .streamError, done := true }
    | .connError _ => { st with err := some .connectionFailed, done := true }
    | .timerFired => st

/-- Read the final generator outcome from its state: once `done`, the yield
    loop exits and the recorded error (if any) is thrown; otherwise the
    generator is still suspended awaiting events. -/
def genFinish (st : GenState) : GenOutcome :=
  if st.done then
    match st.err with
    | some c => .threw st.yielded c
    | none => .finished st.yielded
  else .awaiting st.yielded

/-- The outcome of `streamChatGenerator` on a finite event trace. -/
def streamChatGenRun (events : List StreamEvent) : GenOutcome :=
  genFinish (events.foldl genStep { yielded := [], err := none, done := false })

end OWB

/-- Counterexample to C8 as stated: on expiry of the 2-minute bound with no
    other events, `streamChat` resolves with the (empty) concatenation, but
    `streamChatGenerator` — which registers no timer at all — is still
    awaiting the stream: it does not complete with the fragments collected
    so far, so the generator-based entry point enforces no upper bound. -/
theorem OWB.c8_generator_no_timeout_counterexample :
    OWB.streamChatRun [OWB.StreamEvent.timerFired] =
      OWB.PromiseOutcome.resolved (String.join []) ∧
    OWB.streamChatGenRun [OWB.StreamEvent.timerFired] =
      OWB.GenOutcome.awaiting [] ∧
    OWB.streamChatGenRun [OWB.StreamEvent.timerFired] ≠
      OWB.GenOutcome.finished [] :=
  ⟨by decide, by decide, by decide⟩

/-- C8 amended: only the promise-based `streamChat` enforces the upper
    bound on call duration — whenever it is still pending, timer expiry
    completes it successfully with the concatenation of the fragments
    collected so far, never with an error; the generator-based
    `streamChatGenerator` registers no timeout, and timer expiry leaves its
    outcome unchanged (it completes only on stream end or error events). -/
theorem OWB.c8_timeout_resolves_with_fragments :
    (∀ (prior : List OWB.StreamEvent) (cs : List String),
        OWB.streamChatRun prior = OWB.PromiseOutcome.pending cs →
        OWB.streamChatRun (prior ++ [OWB.StreamEvent.timerFired]) =
          OWB.PromiseOutcome.resolved (String.join cs)) ∧
    (∀ events : List OWB.StreamEvent,
        OWB.streamChatGenRun (events ++ [OWB.StreamEvent.timerFired]) =
          OWB.streamChatGenRun events) := by
  constructor
  · intro prior cs h
    unfold OWB.streamChatRun at h ⊢
    rw [List.foldl_append, h]
    rfl
  · intro events
    have hstep : ∀ st : OWB.GenState,
        OWB.genStep st OWB.StreamEvent.timerFired = st := by
      intro st
      simp [OWB.genStep]
    unfold OWB.streamChatGenRun
    rw [List.foldl_append, List.foldl_cons, List.foldl_nil, hstep]

/-- Witness for C8 (amended): after one extracted fragment, timer expiry
    resolves `streamChat` with exactly that fragment. -/
theorem OWB.c8_timeout_resolves_with_fragments_witness :
    OWB.streamChatRun [OWB.StreamEvent.data "* hello", OWB.StreamEvent.timerFired] =
      OWB.PromiseOutcome.resolved (String.join ["hello"]) :=
  OWB.c8_timeout_resolves_with_fragments.1 [OWB.StreamEvent.data "* hello"] ["hello"] (by decide)

namespace OWB

/-- JSON values as `JSON.parse` produces them.  Numbers keep their raw
    token text: no claim inspects a numeric value, only shapes and
    strings. -/
inductive Json
  | null
  | bool (b : Bool)
  | num (raw : String)
  | str (s : String)
  | arr (elems : List Json)
  | obj (fields : List (String × Json))

/-- JSON whitespace (the only characters `JSON.parse` skips). -/
def jsonWsChar (c : Char) : Bool :=
  c = ' ' ∨ c = '\t' ∨ c = '\n' ∨ c = '\r'

/-- Skip JSON whitespace. -/
def skipJsonWs (cs : List Char) : List Char :=
  cs.dropWhile jsonWsChar

/-- Value of one hex digit. -/
def hexVal (c : Char) : Option Nat :=
  if c.isDigit then some (c.toNat - 48)
  else if 'a' ≤ c ∧ c ≤ 'f' then some (c.toNat - 87)
  else if 'A' ≤ c ∧ c ≤ 'F' then some (c.toNat - 55)
  else none

/-- Four hex digits. -/
def hex4 (h1 h2 h3 h4 : Char) : Option Nat :=
  match hexVal h1, hexVal h2, hexVal h3, hexVal h4 with
  | some a, some b, some c, some d => some (a * 4096 + b * 256 + c * 16 + d)
  | _, _, _, _ => none

/-- The Unicode replacement character, standing in for lone surrogates
    (which a JS string can hold but a Lean `Char` cannot; no claim inspects
    such strings). -/
def replChar : Char := Char.ofNat 65533

/-- Body of a JSON string literal, after the opening quote: returns the
    decoded characters and the remainder after the closing quote.  Handles
    the JSON escapes, `\uXXXX` (surrogate pairs combined), and rejects raw
    control characters, exactly as `JSON.parse` does.  The fuel argument
    keeps the recursion structural; `length + 1` always suffices since
    every step consumes at least one character. -/
def parseStrBody : Nat → List Char → Option (List Char × List Char)
  | 0, _ => none
  | fuel + 1, cs =>
    match cs with
    | [] => none
    | c :: rest =>
      if c = '"' then some ([], rest)
      else if c = '\\' then
        match rest with
        | [] => none
        | e :: rest2 =>
          if e = '"' then (parseStrBody fuel rest2).map (fun r => ('"' :: r.1, r.2))
          else if e = '\\' then (parseStrBody fuel rest2).map (fun r => ('\\' :: r.1, r.2))
          else if e = '/' then (parseStrBody fuel rest2).map (fun r => ('/' :: r.1, r.2))
          else if e = 'b' then (parseStrBody fuel rest2).map (fun r => (Char.ofNat 8 :: r.1, r.2))
          else if e = 'f' then (parseStrBody fuel rest2).map (fun r => (Char.ofNat 12 :: r.1, r.2))
          else if e = 'n' then (parseStrBody fuel rest2).map (fun r => ('\n' :: r.1, r.2))
          else if e = 'r' then (parseStrBody fuel rest2).map (fun r => ('\r' :: r.1, r.2))
          else if e = 't' then (parseStrBody fuel rest2).map (fun r => ('\t' :: r.1, r.2))
          else if e = 'u' then
            match rest2 with
            | h1 :: h2 :: h3 :: h4 :: rest3 =>
              match hex4 h1 h2 h3 h4 with
              | none => none
              | some code =>
                if 55296 ≤ code ∧ code ≤ 56319 then
                  match rest3 with
                  | '\\' :: 'u' :: g1 :: g2 :: g3 :: g4 :: rest4 =>
                    match hex4 g1 g2 g3 g4 with
                    | some lo =>
                      if 56320 ≤ lo ∧ lo ≤ 57343 then
                        (parseStrBody fuel rest4).map (fun r =>
                          (Char.ofNat (65536 + (code - 55296) * 1024 + (lo - 56320)) :: r.1, r.2))
                      else (parseStrBody fuel rest3).map (fun r => (replChar :: r.1, r.2))
                    | none => (parseStrBody fuel rest3).map (fun r => (replChar :: r.1, r.2))
                  | _ => (parseStrBody fuel rest3).map (fun r => (replChar :: r.1, r.2))
                else if 56320 ≤ code ∧ code ≤ 57343 then
                  (parseStrBody fuel rest3).map (fun r => (replChar :: r.1, r.2))
                else
                  (parseStrBody fuel rest3).map (fun r => (Char.ofNat code :: r.1, r.2))
            | _ => none
          else none
      else if c.toNat < 32 then none
      else (parseStrBody fuel rest).map (fun r => (c :: r.1, r.2))

/-- A JSON number token, following the JSON grammar (`-?` then `0` or a
    nonzero-led digit run, optional fraction, optional exponent).  Malformed
    continuations are simply not consumed, in which case the enclosing
    parser fails on the leftover character, matching `JSON.parse`. -/
def parseNumberTok (cs : List Char) : Option (List Char × List Char) :=
  let sign : List Char × List Char :=
    match cs with
    | c :: t => if c = '-' then ([c], t) else ([], cs)
    | [] => ([], cs)
  match sign.2 with
  | [] => none
  | c :: t =>
    if ¬ c.isDigit then none
    else
      let ip : List Char × List Char :=
        if c = '0' then ([c], t)
        else (sign.2.takeWhile Char.isDigit, sign.2.dropWhile Char.isDigit)
      let fp : List Char × List Char :=
        match ip.2 with
        | p :: t2 =>
          if p = '.' ∧ (t2.takeWhile Char.isDigit) ≠ [] then
            (p :: t2.takeWhile Char.isDigit, t2.dropWhile Char.isDigit)
          else ([], ip.2)
        | [] => ([], ip.2)
      let ep : List Char × List Char :=
        match fp.2 with
        | e :: t3 =>
          if e = 'e' ∨ e = 'E' then
            match t3 with
            | s2 :: t4 =>
              if s2 = '+' ∨ s2 = '-' then
                if (t4.takeWhile Char.isDigit) ≠ [] then
                  (e :: s2 :: t4.takeWhile Char.isDigit, t4.dropWhile Char.isDigit)
                else ([], fp.2)
              else if (t3.takeWhile Char.isDigit) ≠ [] then
                (e :: t3.takeWhile Char.isDigit, t3.dropWhile Char.isDigit)
              else ([], fp.2)
            | [] => ([], fp.2)
          else ([], fp.2)
        | [] => ([], fp.2)
      some (sign.1 ++ ip.1 ++ fp.1 ++ ep.1, ep.2)

end OWB

namespace OWB

mutual

/-- Recursive-descent `JSON.parse`, fuel-structured: parse one value
    (leading whitespace allowed).  A fuel of input length + 1 always
    suffices, since at least one character is consumed before every
    recursive call. -/
def parseJsonValue : Nat → List Char → Option (Json × List Char)
  | 0, _ => none
  | fuel + 1, cs =>
    match skipJsonWs cs with
    | [] => none
    | c :: rest =>
      if c = '"' then
        (parseStrBody (rest.length + 1) rest).map (fun r => (Json.str (String.mk r.1), r.2))
      else if c = lbraceChar then
        match skipJsonWs rest with
        | d :: rest2 =>
          if d = rbraceChar then some (Json.obj [], rest2)
          else (parseJsonFields fuel (skipJsonWs rest)).map (fun r => (Json.obj r.1, r.2))
        | [] => none
      else if c = '[' then
        match skipJsonWs rest with
        | d :: rest2 =>
          if d = ']' then some (Json.arr [], rest2)
          else (parseJsonElems fuel (skipJsonWs rest)).map (fun r => (Json.arr r.1, r.2))
        | [] => none
      else if c = 't' then
        match rest with
        | 'r' :: 'u' :: 'e' :: rest2 => some (Json.bool true, rest2)
        | _ => none
      else if c = 'f' then
        match rest with
        | 'a' :: 'l' :: 's' :: 'e' :: rest2 => some (Json.bool false, rest2)
        | _ => none
      else if c = 'n' then
        match rest with
        | 'u' :: 'l' :: 'l' :: rest2 => some (Json.null, rest2)
        | _ => none
      else
        (parseNumberTok (c :: rest)).map (fun r => (Json.num (String.mk r.1), r.2))

/-- Members of a JSON object after its opening brace (first key expected). -/
def parseJsonFields : Nat → List Char → Option (List (String × Json) × List Char)
  | 0, _ => none
  | fuel + 1, cs =>
    match skipJsonWs cs with
    | c :: rest =>
      if c = '"' then
        match parseStrBody (rest.length + 1) rest with
        | some (key, r1) =>
          match skipJsonWs r1 with
          | ':' :: r2 =>
            match parseJsonValue fuel r2 with
            | some (v, r3) =>
              match skipJsonWs r3 with
              | ',' :: r4 =>
                (parseJsonFields fuel r4).map (fun r => ((String.mk key, v) :: r.1, r.2))
              | d :: r4 =>
                if d = rbraceChar then some ([(String.mk key, v)], r4) else none
              | [] => none
            | none => none
          | _ => none
        | none => none
      else none
    | [] => none

/-- Elements of a JSON array after its opening bracket. -/
def parseJsonElems : Nat → List Char → Option (List Json × List Char)
  | 0, _ => none
  | fuel + 1, cs =>
    match parseJsonValue fuel cs with
    | some (v, r1) =>
      match skipJsonWs r1 with
      | ',' :: r2 => (parseJsonElems fuel r2).map (fun r => (v :: r.1, r.2))
      | d :: r2 => if d = ']' then some ([v], r2) else none
      | [] => none
    | none => none

end

/-- `JSON.parse`: parse one value and require only whitespace after it. -/
def jsonParse (s : String) : Option Json :=
  match parseJsonValue (s.data.length + 1) s.data with
  | some (v, rest) => if skipJsonWs rest = [] then some v else none
  | none => none

/-- Property access on a parsed JSON object: `JSON.parse` keeps the last
    binding of a duplicated key, hence the reverse search. -/
def jlookup (fields : List (String × Json)) (key : String) : Option Json :=
  ((fields.reverse).find? (fun p => p.1 == key)).map (fun p => p.2)

mutual

/-- Size measure of a JSON value, used as normalization fuel. -/
def jsize : Json → Nat
  | .null => 1
  | .bool _ => 1
  | .num _ => 1
  | .str s => s.length + 1
  | .arr xs => jsizeList xs + 1
  | .obj fs => jsizeFields fs + 1

/-- Summed size of a list of JSON values. -/
def jsizeList : List Json → Nat
  | [] => 0
  | x :: xs => jsize x + jsizeList xs

/-- Summed size of the values of JSON object fields. -/
def jsizeFields : List (String × Json) → Nat
  | [] => 0
  | f :: fs => jsize f.2 + jsizeFields fs

end

/-- `trimmed.startsWith('{') && trimmed.endsWith('}')`, or the same with
    brackets (plugin.ts:330-332). -/
def looksJson (t : List Char) : Bool :=
  match t.head?, t.getLast? with
  | some a, some b => (a = lbraceChar ∧ b = rbraceChar) ∨ (a = '[' ∧ b = ']')
  | _, _ => false

/-- `normalizeToolArguments` (plugin.ts:325-356): `null`/`undefined` become
    `{}`; a string that looks like embedded JSON is parsed and normalized
    recursively (kept verbatim if the parse fails); arrays and objects are
    normalized element-wise; other values pass through.  The fuel argument
    keeps the recursion structural: re-parsing a string strictly shrinks
    the `jsize` measure, so `jsize + 1` suffices. -/
def normalizeGo : Nat → Json → Json
  | 0, j => j
  | fuel + 1, j =>
    match j with
    | .null => .obj []
    | .str s =>
      if looksJson (jsTrimList s.data) then
        match jsonParse (String.mk (jsTrimList s.data)) with
        | some v => normalizeGo fuel v
        | none => .str s
      else .str s
    | .arr xs => .arr (xs.map (fun x => normalizeGo fuel x))
    | .obj fs => .obj (fs.map (fun p => (p.1, normalizeGo fuel p.2)))
    | other => other

/-- `normalizeToolArguments` with its fuel instantiated. -/
def normalizeToolArguments (j : Json) : Json :=
  normalizeGo (jsize j + 1) j

end OWB

namespace OWB

/-- The parsed tool-call plan (plugin.ts:321-323): a final answer or an
    ordered list of `(name, arguments)` tool invocations. -/
inductive ToolCallPlan
  | final (content : String)
  | toolCall (calls : List (String × Json))

/-- One entry of `parsed.tool_calls` (plugin.ts:371-373): kept when it is
    an object whose `name` is a string; its `arguments` (missing treated as
    `{}` by normalization of `undefined`/`null`) are normalized. -/
def toolOfJson (t : Json) : Option (String × Json) :=
  match t with
  | .obj fs =>
    match jlookup fs "name" with
    | some (.str n) =>
      some (n, match jlookup fs "arguments" with
               | none => Json.obj []
               | some a => normalizeToolArguments a)
    | _ => none
  | _ => none

/-- The conformance checks of `parseToolCallPlan` on a successfully parsed
    JSON value (plugin.ts:365-376): an object with `action` `'final'` and a
    string `content` yields a final plan; an object with `action`
    `'tool_call'` and an array `tool_calls` yields a tool-call plan with the
    conformant entries; anything else yields `null`. -/
def planOfJson (v : Json) : Option ToolCallPlan :=
  match v with
  | .obj fs =>
    match jlookup fs "action" with
    | some (.str a) =>
      if a = "final" then
        match jlookup fs "content" with
        | some (.str c) => some (.final c)
        | _ => none
      else if a = "tool_call" then
        match jlookup fs "tool_calls" with
        | some (.arr ts) => some (.toolCall (ts.filterMap toolOfJson))
        | _ => none
      else none
    | _ => none
  | _ => none

/-- The literal `<tool_call>` tag. -/
def tagChars : List Char := "<tool_call>".data

/-- The name class `[\w.-]` of the tagged-call pattern. -/
def isWordDotDash (c : Char) : Bool :=
  c.isAlpha ∨ c.isDigit ∨ c = '_' ∨ c = '.' ∨ c = '-'

/-- The lazy group `(\{[\s\S]*?\})(?=\s*(?:<tool_call>|$))` of the fallback
    pattern (plugin.ts:379): find the shortest prefix ending at a closing
    brace whose remainder, after whitespace, is either the end of input or
    another `<tool_call>` tag.  `accRev` holds the consumed prefix
    reversed; fuel keeps the recursion structural (remainder length
    suffices). -/
def braceLazy : Nat → List Char → List Char → Option (List Char × List Char)
  | 0, _, _ => none
  | fuel + 1, accRev, rem =>
    match rem with
    | [] => none
    | c :: rest =>
      if c = rbraceChar then
        if (rest.dropWhile isJsWs).isEmpty || tagChars.isPrefixOf (rest.dropWhile isJsWs) then
          some ((c :: accRev).reverse, rest)
        else braceLazy fuel (c :: accRev) rest
      else braceLazy fuel (c :: accRev) rest

/-- Attempt the tagged-call pattern right after a `<tool_call>` tag:
    `\s*([\w.-]+)\s*` then the lazy braced group. -/
def tryTagMatch (after : List Char) : Option (String × String × List Char) :=
  let afterName := after.dropWhile isJsWs
  let nameChars := afterName.takeWhile isWordDotDash
  if nameChars = [] then none
  else
    match (afterName.drop nameChars.length).dropWhile isJsWs with
    | c :: rest =>
      if c = lbraceChar then
        match braceLazy rest.length [c] rest with
        | some (raw, remAfter) => some (String.mk nameChars, String.mk raw, remAfter)
        | none => none
      else none
    | [] => none

/-- `matchAll` of the tagged-call pattern (plugin.ts:379): leftmost
    matches, resuming after each match end; positions where the tag matches
    but the rest of the pattern fails are skipped one character at a time,
    exactly as the regex engine advances.  Fuel keeps the recursion
    structural; input length + 1 suffices since every step consumes at
    least one character. -/
def scanCalls : Nat → List Char → List (String × String)
  | 0, _ => []
  | fuel + 1, cs =>
    match cs with
    | [] => []
    | _ :: rest0 =>
      if tagChars.isPrefixOf cs then
        match tryTagMatch (cs.drop tagChars.length) with
        | some (name, raw, remAfter) => (name, raw) :: scanCalls fuel remAfter
        | none => scanCalls fuel rest0
      else scanCalls fuel rest0

/-- The fallback branch of `parseToolCallPlan` (plugin.ts:378-401): collect
    `(name, rawArgs)` pairs, keep those whose raw arguments parse as JSON
    (normalized), return `null` when nothing conformant remains. -/
def scanTaggedPlan (output : String) : Option ToolCallPlan :=
  match scanCalls (output.data.length + 1) output.data with
  | [] => none
  | ms =>
    match ms.filterMap (fun m =>
        (jsonParse m.2).map (fun a => (m.1, normalizeToolArguments a))) with
    | [] => none
    | tcs => some (.toolCall tcs)

/-- `output.indexOf('{')` / `output.lastIndexOf('}')` and the slice between
    them (plugin.ts:359-362): `none` when either brace is missing or the
    last `}` does not lie after the first `{`. -/
def jsonSliceOf (output : String) : Option String :=
  match output.data.findIdx? (fun c => c = lbraceChar),
        (output.data.reverse.findIdx? (fun c => c = rbraceChar)).map
          (fun i => output.data.length - 1 - i) with
  | some st, some en =>
    if en ≤ st then none
    else some (String.mk ((output.data.drop st).take (en + 1 - st)))
  | _, _ => none

/-- `parseToolCallPlan` (plugin.ts:358-403): slice between the first `{`
    and the last `}`; try `JSON.parse` on it and apply the conformance
    checks; only when that parse throws, fall back to the tagged-call
    scan. -/
def parseToolCallPlan (output : String) : Option ToolCallPlan :=
  match jsonSliceOf output with
  | none => none
  | some txt =>
    match jsonParse txt with
    | some parsed => planOfJson parsed
    | none => scanTaggedPlan output

/-- The body shapes `handleToolPlanning` can respond with
    (plugin.ts:103-136). -/
inductive PlanResponse
  | toolCalls (calls : List (String × Json))
  | text (content : String) (finishReason : String)

/-- An HTTP response of the planning handler: status plus body. -/
structure HandlerResponse where
  status : Nat
  body : PlanResponse

/-- `handleToolPlanning` (plugin.ts:103-136) as a function of the collected
    model text: a `tool_call` plan answers with the tool-call payload, a
    `final` plan with its content, and a `null` plan with the raw collected
    text; every branch is a status-200 response, and the non-tool-call
    branches finish with `'stop'`. -/
def handleToolPlanningResult (content : String) : HandlerResponse :=
  match parseToolCallPlan content with
  | some (.toolCall tcs) => { status := 200, body := .toolCalls tcs }
  | some (.final c) => { status := 200, body := .text c "stop" }
  | none => { status := 200, body := .text content "stop" }

/-- Scenario D input of the spec. -/
def scenarioD : String :=
  "noise \x7b\"action\":\"final\",\"content\":\"done\"\x7d trailing"

end OWB

set_option maxRecDepth 100000 in
/-- C6: the tool-call plan parser first attempts a direct JSON parse of the
    substring between the first opening and the last closing brace: when
    that parse succeeds the result is determined by the conformance checks
    alone (the tagged fallback is never consulted, even if the shape is
    rejected); only when the parse fails does it fall back to the
    tagged-call scan.  On the scenario input with noise around a final
    JSON object, it returns a final plan with content "done". -/
theorem OWB.c6_parse_order_and_scenario :
    (∀ (s txt : String) (v : OWB.Json),
        OWB.jsonSliceOf s = some txt → OWB.jsonParse txt = some v →
        OWB.parseToolCallPlan s = OWB.planOfJson v) ∧
    (∀ s txt : String,
        OWB.jsonSliceOf s = some txt → OWB.jsonParse txt = none →
        OWB.parseToolCallPlan s = OWB.scanTaggedPlan s) ∧
    OWB.parseToolCallPlan OWB.scenarioD = some (OWB.ToolCallPlan.final "done") := by
  refine ⟨?_, ?_, ?_⟩
  · intro s txt v h1 h2
    unfold OWB.parseToolCallPlan
    rw [h1]
    show (match OWB.jsonParse txt with
          | some parsed => OWB.planOfJson parsed
          | none => OWB.scanTaggedPlan s) = _
    rw [h2]
  · intro s txt h1 h2
    unfold OWB.parseToolCallPlan
    rw [h1]
    show (match OWB.jsonParse txt with
          | some parsed => OWB.planOfJson parsed
          | none => OWB.scanTaggedPlan s) = _
    rw [h2]
  · rfl

set_option maxRecDepth 100000 in
/-- Witness for C6: on the scenario input the slice parses directly, so the
    plan is exactly the conformance check of the parsed object. -/
theorem OWB.c6_parse_order_and_scenario_witness :
    OWB.parseToolCallPlan OWB.scenarioD =
      OWB.planOfJson (OWB.Json.obj
        [("action", OWB.Json.str "final"), ("content", OWB.Json.str "done")]) :=
  OWB.c6_parse_order_and_scenario.1 OWB.scenarioD
    "\x7b\"action\":\"final\",\"content\":\"done\"\x7d"
    (OWB.Json.obj [("action", OWB.Json.str "final"), ("content", OWB.Json.str "done")])
    (by rfl) (by rfl)

/-- C7: whenever neither parse path yields a conformant structure (the plan
    is `null`), the planning handler responds with the raw collected text
    as a final answer with finish reason `'stop'`; and for every collected
    text the handler produces a status-200 response — a parse failure is
    never propagated as an error. -/
theorem OWB.c7_parse_failure_absorbed :
    (∀ content : String,
        OWB.parseToolCallPlan content = none →
        OWB.handleToolPlanningResult content =
          { status := 200, body := OWB.PlanResponse.text content "stop" }) ∧
    (∀ content : String, (OWB.handleToolPlanningResult content).status = 200) := by
  constructor
  · intro content h
    unfold OWB.handleToolPlanningResult
    rw [h]
  · intro content
    unfold OWB.handleToolPlanningResult
    cases hp : OWB.parseToolCallPlan content with
    | none => rfl
    | some p => cases p <;> rfl

/-- Witness for C7: unparsable model output is echoed back as a final
    stop answer. -/
theorem OWB.c7_parse_failure_absorbed_witness :
    OWB.handleToolPlanningResult "no structured output here" =
      { status := 200, body := OWB.PlanResponse.text "no structured output here" "stop" } :=
  OWB.c7_parse_failure_absorbed.1 "no structured output here" (by rfl)
